import Mathlib

/-!
Shallow embedding of the resilience core of the repository:
the circuit breaker (src/shared/circuit_breaker.py) and the
choreographed saga coordinator (src/services/orders/app/saga.py),
together with theorems settling the specification claims about them.

Time is modelled as an integer monotonic clock passed explicitly to
each call (the Python code reads time.monotonic()).  Exceptions raised
by the wrapped operation are modelled by a boolean outcome of the call;
a rejected call models raising CircuitBreakerError without invoking the
wrapped operation.
-/

namespace Breaker

/-- The three breaker states of CircuitState in circuit_breaker.py. -/
inductive CircuitState where
  | closed
  | opened
  | halfOpen
  deriving DecidableEq

/-- State of one CircuitBreaker instance: configuration
(failure_threshold, recovery_timeout, success_threshold) plus the
mutable fields _state, _failure_count, _success_count, _opened_at. -/
structure CircuitBreaker where
  name : String
  failure_threshold : Nat
  recovery_timeout : Int
  success_threshold : Nat
  state : CircuitState
  failure_count : Nat
  success_count : Nat
  opened_at : Option Int
  deriving DecidableEq

/-- CircuitBreaker.__init__: fresh breaker in CLOSED with zero counters. -/
def mkBreaker (name : String) (failure_threshold : Nat) (recovery_timeout : Int)
    (success_threshold : Nat) : CircuitBreaker :=
  { name := name
    failure_threshold := failure_threshold
    recovery_timeout := recovery_timeout
    success_threshold := success_threshold
    state := CircuitState.closed
    failure_count := 0
    success_count := 0
    opened_at := none }

/-- CircuitBreaker._on_failure: increment _failure_count, zero
_success_count, and if the state is CLOSED or HALF_OPEN and the new
count has reached failure_threshold, move to OPEN recording
_opened_at = now. -/
def on_failure (b : CircuitBreaker) (now : Int) : CircuitBreaker :=
  let fc := b.failure_count + 1
  let b1 := { b with failure_count := fc, success_count := 0 }
  if (b.state = CircuitState.closed ∨ b.state = CircuitState.halfOpen)
      ∧ b.failure_threshold ≤ fc then
    { b1 with state := CircuitState.opened, opened_at := some now }
  else
    b1

/-- CircuitBreaker._on_success: zero _failure_count; in HALF_OPEN
increment _success_count and close the circuit once it reaches
success_threshold (the count itself is not reset by this transition). -/
def on_success (b : CircuitBreaker) : CircuitBreaker :=
  let b1 := { b with failure_count := 0 }
  if b.state = CircuitState.halfOpen then
    let sc := b.success_count + 1
    if b.success_threshold ≤ sc then
      { b1 with success_count := sc, state := CircuitState.closed }
    else
      { b1 with success_count := sc }
  else
    b1

/-- The admission gate at the top of CircuitBreaker.call (the part run
under the lock): an OPEN breaker rejects while
now - (_opened_at or 0) < recovery_timeout, and otherwise transitions
to HALF_OPEN with _success_count = 0 and admits the call as a probe;
any other state admits the call unchanged.  The boolean is true when
the wrapped operation will be invoked. -/
def gate (b : CircuitBreaker) (now : Int) : CircuitBreaker × Bool :=
  if b.state = CircuitState.opened then
    let elapsed := now - (b.opened_at.getD 0)
    if elapsed < b.recovery_timeout then
      (b, false)
    else
      ({ b with state := CircuitState.halfOpen, success_count := 0 }, true)
  else
    (b, true)

/-- Outcome of one CircuitBreaker.call: rejected means
CircuitBreakerError was raised without invoking the operation; failed
means the operation was invoked and raised (the exception is recorded
by _on_failure and re-raised); succeeded means it was invoked and
returned. -/
inductive CallResult where
  | rejected
  | succeeded
  | failed
  deriving DecidableEq

/-- CircuitBreaker.call at time now, with op_ok the outcome of the
wrapped operation when it is invoked. -/
def call (b : CircuitBreaker) (now : Int) (op_ok : Bool) : CircuitBreaker × CallResult :=
  match gate b now with
  | (b1, false) => (b1, CallResult.rejected)
  | (b1, true) =>
      if op_ok then (on_success b1, CallResult.succeeded)
      else (on_failure b1 now, CallResult.failed)

/-- The read-only snapshot returned by CircuitBreaker.get_stats. -/
structure BreakerStats where
  name : String
  state : CircuitState
  failure_count : Nat
  success_count : Nat
  deriving DecidableEq

/-- CircuitBreaker.get_stats. -/
def get_stats (b : CircuitBreaker) : BreakerStats :=
  { name := b.name
    state := b.state
    failure_count := b.failure_count
    success_count := b.success_count }

/-- A sequence of calls: each event is (time, outcome of the wrapped
operation if invoked); returns the breaker after all of them. -/
def run_calls (b : CircuitBreaker) (events : List (Int × Bool)) : CircuitBreaker :=
  events.foldl (fun acc e => (call acc e.1 e.2).1) b

end Breaker

namespace Saga

/-- The six saga statuses of SagaStatus in saga.py. -/
inductive SagaStatus where
  | pending
  | running
  | completed
  | failed
  | compensating
  | compensated
  deriving DecidableEq

/-- The string values of the SagaStep enum (SagaStep is a str Enum, so
advance_saga's string argument compares equal to these values). -/
def RESERVE_INVENTORY : String := "reserve_inventory"

def CHARGE_PAYMENT : String := "charge_payment"

def CONFIRM_ORDER : String := "confirm_order"

/-- One entry appended to saga["steps"] by advance_saga
({"step": step, "success": success, "payload": payload or {}}). -/
structure StepRecord where
  step : String
  success : Bool
  payload : List (String × String)
  deriving DecidableEq

/-- A compensating event published by _compensate through _publish:
routing key "inventory.release" with {order_id, items}, or routing key
"payment.refund" with {order_id, user_id}. -/
inductive Event where
  | inventory_release (order_id : String) (items : List String)
  | payment_refund (order_id : String) (user_id : Int)
  deriving DecidableEq

/-- One saga record of _saga_store (a dict value in saga.py). -/
structure SagaState where
  saga_id : String
  order_id : String
  user_id : Int
  items : List String
  status : SagaStatus
  steps : List StepRecord
  compensations : List String
  deriving DecidableEq

/-- create_saga, with the uuid4 saga identifier passed in explicitly:
stores a fresh saga with status PENDING, empty steps and empty
compensations. -/
def create_saga (saga_id : String) (order_id : String) (user_id : Int)
    (items : List String) : SagaState :=
  { saga_id := saga_id
    order_id := order_id
    user_id := user_id
    items := items
    status := SagaStatus.pending
    steps := []
    compensations := [] }

/-- The loop body of _compensate over the reversed list of successful
step names.  Each iteration sits in its own try/except, and _publish
additionally catches every transport error internally, so a failed
publish never interrupts the traversal.  pub_ok says, per publish
attempt (indexed in attempt order), whether the transport delivered the
message; the first returned list is every event for which a publish was
attempted, the second the events actually delivered. -/
def compensate_loop (order_id : String) (user_id : Int) (items : List String)
    (pub_ok : Nat → Bool) (idx : Nat) :
    List String → List Event × List Event
  | [] => ([], [])
  | s :: rest =>
      if s = RESERVE_INVENTORY then
        let e := Event.inventory_release order_id items
        let r := compensate_loop order_id user_id items pub_ok (idx + 1) rest
        (e :: r.1, if pub_ok idx then e :: r.2 else r.2)
      else if s = CHARGE_PAYMENT then
        let e := Event.payment_refund order_id user_id
        let r := compensate_loop order_id user_id items pub_ok (idx + 1) rest
        (e :: r.1, if pub_ok idx then e :: r.2 else r.2)
      else
        compensate_loop order_id user_id items pub_ok idx rest

/-- _compensate: collect the step names recorded with success = true in
append order, traverse them in reverse publishing the compensating
events, then set status = COMPENSATED. -/
def compensate (saga : SagaState) (pub_ok : Nat → Bool) :
    SagaState × List Event × List Event :=
  let completed_steps := (saga.steps.filter (fun r => r.success)).map (fun r => r.step)
  let r := compensate_loop saga.order_id saga.user_id saga.items pub_ok 0
    completed_steps.reverse
  ({ saga with status := SagaStatus.compensated }, r)

/-- advance_saga on an existing saga: append the step record; on
success = false set status = COMPENSATING and run _compensate (which
leaves status = COMPENSATED); on success = true set status = COMPLETED
when the set of successful step names includes every SagaStep, and
RUNNING otherwise.  Returns the updated saga together with the
attempted and delivered compensating events of this call. -/
def advance_saga (saga : SagaState) (step : String) (success : Bool)
    (payload : List (String × String)) (pub_ok : Nat → Bool) :
    SagaState × List Event × List Event :=
  let saga1 := { saga with
    steps := saga.steps ++
      [({ step := step, success := success, payload := payload } : StepRecord)] }
  if success = false then
    compensate { saga1 with status := SagaStatus.compensating } pub_ok
  else
    let completed_steps := (saga1.steps.filter (fun r => r.success)).map (fun r => r.step)
    if [RESERVE_INVENTORY, CHARGE_PAYMENT, CONFIRM_ORDER].all
        (fun s => completed_steps.contains s) then
      ({ saga1 with status := SagaStatus.completed }, [], [])
    else
      ({ saga1 with status := SagaStatus.running }, [], [])

/-- get_saga on a stored saga is the identity (a read-only snapshot). -/
def get_saga (saga : SagaState) : SagaState := saga

/-- An oracle under which every publish is delivered. -/
def all_ok : Nat → Bool := fun _ => true

/-- One advance_saga invocation, as data. -/
structure AdvanceCall where
  step : String
  success : Bool
  payload : List (String × String)

/-- Run a sequence of advance_saga calls, returning the final saga. -/
def run_saga (saga : SagaState) (calls : List AdvanceCall) (pub_ok : Nat → Bool) :
    SagaState :=
  calls.foldl (fun s c => (advance_saga s c.step c.success c.payload pub_ok).1) saga

/-- Run a sequence of advance_saga calls, accumulating every attempted
compensating event across the calls. -/
def run_saga_events (saga : SagaState) (calls : List AdvanceCall)
    (pub_ok : Nat → Bool) : SagaState × List Event :=
  calls.foldl
    (fun acc c =>
      let r := advance_saga acc.1 c.step c.success c.payload pub_ok
      (r.1, acc.2 ++ r.2.1))
    (saga, [])

end Saga

namespace Breaker

/-- run_calls over a cons peels off the first call. -/
lemma run_calls_cons (b : CircuitBreaker) (e : Int × Bool) (l : List (Int × Bool)) :
    run_calls b (e :: l) = run_calls (call b e.1 e.2).1 l := rfl

/-- run_calls over an append runs the two segments in sequence. -/
lemma run_calls_append (b : CircuitBreaker) (l1 l2 : List (Int × Bool)) :
    run_calls b (l1 ++ l2) = run_calls (run_calls b l1) l2 :=
  List.foldl_append ..

/-- A failing call on a closed breaker below the threshold records the
failure and stays closed. -/
lemma call_closed_fail_below (b : CircuitBreaker) (t : Int)
    (hs : b.state = CircuitState.closed)
    (h : b.failure_count + 1 < b.failure_threshold) :
    call b t false =
      ({ b with failure_count := b.failure_count + 1, success_count := 0 },
        CallResult.failed) := by
  obtain ⟨nm, ft, rt, st, s, fc, sc, oa⟩ := b
  simp only at hs h
  subst hs
  simp [call, gate, on_failure]
  omega

/-- A run of failing calls on a closed breaker that never reaches the
threshold only accumulates the failure count. -/
lemma run_fail_closed (t : Int) (k : Nat) :
    ∀ b : CircuitBreaker, b.state = CircuitState.closed → b.success_count = 0 →
    b.failure_count + k < b.failure_threshold →
    run_calls b (List.replicate k (t, false)) =
      { b with failure_count := b.failure_count + k } := by
  induction k with
  | zero => intro b hs hsc h; rfl
  | succ n ih =>
    intro b hs hsc h
    rw [List.replicate_succ, run_calls_cons]
    have step : (call b (t, false).1 (t, false).2).1 =
        { b with failure_count := b.failure_count + 1, success_count := 0 } := by
      rw [call_closed_fail_below b t hs (by omega)]
    rw [step]
    rw [ih _ (by simp [hs]) rfl (by simp; omega)]
    obtain ⟨nm, ft, rt, st, s, fc, sc, oa⟩ := b
    simp only at hsc
    subst hsc
    simp
    omega

/-- A failing call on a closed or half-open breaker whose failure count
reaches the threshold opens the breaker and records opened_at = now. -/
lemma call_fail_opens (b : CircuitBreaker) (t : Int)
    (hs : b.state = CircuitState.closed ∨ b.state = CircuitState.halfOpen)
    (h : b.failure_threshold ≤ b.failure_count + 1) :
    (call b t false).1 =
      { b with failure_count := b.failure_count + 1, success_count := 0,
               state := CircuitState.opened, opened_at := some t } := by
  obtain ⟨nm, ft, rt, st, s, fc, sc, oa⟩ := b
  simp only at hs h
  rcases hs with hs | hs <;> subst hs <;> simp [call, gate, on_failure, h]

/-- An open breaker inside its recovery window rejects the call and is
left unchanged. -/
lemma call_open_rejected (b : CircuitBreaker) (now : Int) (ok : Bool) (τ : Int)
    (hs : b.state = CircuitState.opened) (ho : b.opened_at = some τ)
    (h : now - τ < b.recovery_timeout) :
    call b now ok = (b, CallResult.rejected) := by
  obtain ⟨nm, ft, rt, st, s, fc, sc, oa⟩ := b
  simp only at hs ho h
  subst hs
  subst ho
  simp [call, gate, h]

/-- A run of calls on an open breaker inside its recovery window leaves
it unchanged. -/
lemma run_open_rejected (b : CircuitBreaker) (t : Int) (m : Nat) (τ : Int)
    (hs : b.state = CircuitState.opened) (ho : b.opened_at = some τ)
    (h : t - τ < b.recovery_timeout) :
    run_calls b (List.replicate m (t, false)) = b := by
  induction m with
  | zero => rfl
  | succ n ih =>
    rw [List.replicate_succ, run_calls_cons]
    rw [call_open_rejected b t false τ hs ho h]
    exact ih

/-- A successful call on a half-open breaker zeroes the failure count,
increments the success count, and closes the breaker exactly when the
success threshold is reached. -/
lemma call_halfopen_success (b : CircuitBreaker) (t : Int)
    (hs : b.state = CircuitState.halfOpen) :
    (call b t true).1 =
      (if b.success_threshold ≤ b.success_count + 1 then
        { b with failure_count := 0, success_count := b.success_count + 1,
                 state := CircuitState.closed }
      else
        { b with failure_count := 0, success_count := b.success_count + 1 }) := by
  obtain ⟨nm, ft, rt, st, s, fc, sc, oa⟩ := b
  simp only at hs
  subst hs
  simp [call, gate, on_success]

/-- A half-open breaker closes after exactly the number of consecutive
successes that brings its success count to the threshold. -/
lemma half_open_success_run (t : Int) (k : Nat) :
    ∀ b : CircuitBreaker, b.state = CircuitState.halfOpen →
    b.success_count + k = b.success_threshold → 1 ≤ k →
    (run_calls b (List.replicate k (t, true))).state = CircuitState.closed := by
  induction k with
  | zero => intro b _ _ hk; omega
  | succ n ih =>
    intro b hs hsc _
    rw [List.replicate_succ, run_calls_cons]
    rcases Nat.eq_zero_or_pos n with hn | hn
    · subst hn
      have hclose : (call b (t, true).1 (t, true).2).1 =
          { b with failure_count := 0, success_count := b.success_count + 1,
                   state := CircuitState.closed } := by
        rw [call_halfopen_success b t hs, if_pos (by omega)]
      rw [hclose]
      rfl
    · have hstay : (call b (t, true).1 (t, true).2).1 =
          { b with failure_count := 0, success_count := b.success_count + 1 } := by
        rw [call_halfopen_success b t hs, if_neg (by omega)]
      rw [hstay]
      exact ih _ (by simp [hs]) (by simp; omega) hn

end Breaker

namespace Saga

/-- The events whose publish is attempted by the compensation loop are
exactly the per-step mapping of the traversed names, independent of the
attempt index. -/
lemma compensate_loop_fst (oid : String) (uid : Int) (items : List String)
    (pub_ok : Nat → Bool) : ∀ (idx : Nat) (l : List String),
    (compensate_loop oid uid items pub_ok idx l).1 =
      l.filterMap (fun s =>
        if s = RESERVE_INVENTORY then some (Event.inventory_release oid items)
        else if s = CHARGE_PAYMENT then some (Event.payment_refund oid uid)
        else none) := by
  intro idx l
  induction l generalizing idx with
  | nil => rfl
  | cons s rest ih =>
    by_cases h1 : s = RESERVE_INVENTORY
    · simp [compensate_loop, h1, ih]
    · by_cases h2 : s = CHARGE_PAYMENT
      · simp [compensate_loop, RESERVE_INVENTORY, CHARGE_PAYMENT, h1, h2, ih]
      · simp [compensate_loop, h1, h2, ih]

/-- Membership in the list of successful step names, phrased through
the step records. -/
lemma contains_completed_steps (steps : List StepRecord) (r : String) :
    (((steps.filter (fun q => q.success)).map (fun q => q.step)).contains r = true) ↔
    ∃ q, q ∈ steps ∧ q.success = true ∧ q.step = r := by
  simp only [List.contains_iff_exists_mem_beq, List.mem_map, List.mem_filter]
  constructor
  · rintro ⟨x, ⟨q, ⟨hq, hqs⟩, hstep⟩, hbeq⟩
    exact ⟨q, hq, hqs, by rw [hstep]; exact (beq_iff_eq.mp hbeq).symm⟩
  · rintro ⟨q, hq, hqs, hstep⟩
    exact ⟨q.step, ⟨q, ⟨hq, hqs⟩, rfl⟩, by rw [hstep]; exact beq_self_eq_true r⟩

/-- One advance_saga call only rewrites the status and steps fields. -/
lemma advance_frame (saga : SagaState) (step : String) (success : Bool)
    (payload : List (String × String)) (pub_ok : Nat → Bool) :
    (advance_saga saga step success payload pub_ok).1.saga_id = saga.saga_id ∧
    (advance_saga saga step success payload pub_ok).1.order_id = saga.order_id ∧
    (advance_saga saga step success payload pub_ok).1.user_id = saga.user_id ∧
    (advance_saga saga step success payload pub_ok).1.items = saga.items ∧
    (advance_saga saga step success payload pub_ok).1.compensations = saga.compensations := by
  cases success with
  | false => exact ⟨rfl, rfl, rfl, rfl, rfl⟩
  | true =>
    have ht : ¬ (true = false) := by decide
    simp only [advance_saga, if_neg ht]
    refine ⟨?_, ?_, ?_, ?_, ?_⟩ <;> (split <;> rfl)

end Saga

namespace Breaker

/-- Claim C1: the claim states that a single failing wrapped call in
HalfOpen transitions the breaker back to Open with openedAt = now,
regardless of preceding HalfOpen successes and of failureCount versus
failureThreshold.  This theorem evaluates the code at a concrete
failing input: with failure_threshold 3, after three failures at t=0
(Open), a successful probe at t=11 (HalfOpen, failure count reset to
0), the failing call at t=12 leaves the breaker in HalfOpen with
failure_count 1 and opened_at still 0 — it does not reopen, because
_on_failure only opens when the failure count reaches the threshold. -/
theorem c1_halfopen_failure_leaves_halfopen :
    ((run_calls (mkBreaker "payments" 3 10 2)
        [((0 : Int), false), (0, false), (0, false), (11, true), (12, false)]).state
      = CircuitState.halfOpen) ∧
    ((run_calls (mkBreaker "payments" 3 10 2)
        [((0 : Int), false), (0, false), (0, false), (11, true), (12, false)]).opened_at
      = some 0) ∧
    ((run_calls (mkBreaker "payments" 3 10 2)
        [((0 : Int), false), (0, false), (0, false), (11, true), (12, false)]).failure_count
      = 1) := by decide

/-- Claim C4: starting from a fresh closed breaker, any N ≥
failureThreshold consecutive failing call attempts (at a common time t,
inside a positive recovery window) leave the breaker Open, and a
further call before recoveryTimeout has elapsed is rejected with
CircuitBreakerError without invoking the wrapped operation and without
changing the breaker. -/
theorem c4_threshold_failures_open_then_fast_reject
    (name : String) (ft st : Nat) (rt : Int) (N : Nat) (t t2 : Int) (ok : Bool)
    (hft : 1 ≤ ft) (hN : ft ≤ N) (hrt : 0 < rt) (h2 : t2 - t < rt) :
    (run_calls (mkBreaker name ft rt st) (List.replicate N (t, false))).state
        = CircuitState.opened ∧
    call (run_calls (mkBreaker name ft rt st) (List.replicate N (t, false))) t2 ok
        = (run_calls (mkBreaker name ft rt st) (List.replicate N (t, false)),
            CallResult.rejected) := by
  have key : run_calls (mkBreaker name ft rt st) (List.replicate N (t, false)) =
      { name := name, failure_threshold := ft, recovery_timeout := rt,
        success_threshold := st, state := CircuitState.opened,
        failure_count := ft, success_count := 0, opened_at := some t } := by
    have hsplit : N = (ft - 1) + ((N - ft) + 1) := by omega
    rw [hsplit, List.replicate_add, run_calls_append]
    rw [run_fail_closed t (ft - 1) (mkBreaker name ft rt st) rfl rfl
      (by simp [mkBreaker]; omega)]
    rw [show (N - ft) + 1 = 1 + (N - ft) from by omega, List.replicate_add,
      List.replicate_one]
    rw [show ([(t, false)] ++ List.replicate (N - ft) (t, false)) =
      ((t, false) :: List.replicate (N - ft) (t, false)) from rfl]
    rw [run_calls_cons]
    rw [call_fail_opens _ t (Or.inl rfl) (by simp [mkBreaker]; omega)]
    rw [run_open_rejected _ t (N - ft) t rfl rfl (by simp [mkBreaker]; omega)]
    simp [mkBreaker]
    omega
  rw [key]
  exact ⟨rfl, call_open_rejected _ t2 ok t rfl rfl h2⟩

/-- Witness for claim C4 at failure_threshold 3, N = 5 failures at t=0,
and a rejected call at t=4. -/
theorem c4_threshold_failures_open_then_fast_reject_witness :
    (run_calls (mkBreaker "users" 3 10 2) (List.replicate 5 ((0 : Int), false))).state
        = CircuitState.opened ∧
    call (run_calls (mkBreaker "users" 3 10 2) (List.replicate 5 ((0 : Int), false))) 4 true
        = (run_calls (mkBreaker "users" 3 10 2) (List.replicate 5 ((0 : Int), false)),
            CallResult.rejected) :=
  c4_threshold_failures_open_then_fast_reject "users" 3 2 10 5 0 4 true
    (by decide) (by decide) (by decide) (by decide)

/-- Claim C7: an Open breaker whose recovery timeout has elapsed admits
the next call as a probe, transitioning to HalfOpen with successCount
reset to 0; a HalfOpen breaker closes after the consecutive successes
that bring its success count to successThreshold; and the concrete
scenario with threshold 3, recovery 10 and successThreshold 2: three
failing calls open the breaker, a call at t+5 is rejected, a call at
t+11 is admitted and its success leaves HalfOpen, and a second success
closes the breaker. -/
theorem c7_open_probe_and_recovery :
    (∀ (b : CircuitBreaker) (now : Int), b.state = CircuitState.opened →
        b.recovery_timeout ≤ now - b.opened_at.getD 0 →
        gate b now =
          ({ b with state := CircuitState.halfOpen, success_count := 0 }, true)) ∧
    (∀ (b : CircuitBreaker) (t : Int) (k : Nat), b.state = CircuitState.halfOpen →
        b.success_count + k = b.success_threshold → 1 ≤ k →
        (run_calls b (List.replicate k (t, true))).state = CircuitState.closed) ∧
    ((run_calls (mkBreaker "payments" 3 10 2)
        [((0 : Int), false), (0, false), (0, false)]).state = CircuitState.opened ∧
      (call (run_calls (mkBreaker "payments" 3 10 2)
        [((0 : Int), false), (0, false), (0, false)]) 5 true).2 = CallResult.rejected ∧
      (call (run_calls (mkBreaker "payments" 3 10 2)
        [((0 : Int), false), (0, false), (0, false)]) 11 true).2 = CallResult.succeeded ∧
      (run_calls (mkBreaker "payments" 3 10 2)
        [((0 : Int), false), (0, false), (0, false), (11, true)]).state
          = CircuitState.halfOpen ∧
      (run_calls (mkBreaker "payments" 3 10 2)
        [((0 : Int), false), (0, false), (0, false), (11, true), (12, true)]).state
          = CircuitState.closed) := by
  refine ⟨?_, fun b t k hs hsc hk => half_open_success_run t k b hs hsc hk, by decide⟩
  intro b now hs h
  obtain ⟨nm, ft, rt, st, s, fc, sc, oa⟩ := b
  simp only at hs h ⊢
  subst hs
  have hcond : ¬ (now - oa.getD 0 < rt) := by omega
  simp [gate, hcond]

/-- Witness for claim C7: the probe transition on a concrete expired
Open breaker, and recovery of a concrete HalfOpen breaker after two
successes. -/
theorem c7_open_probe_and_recovery_witness :
    (gate ({ name := "w7", failure_threshold := 3, recovery_timeout := 10,
             success_threshold := 2, state := CircuitState.opened,
             failure_count := 3, success_count := 0,
             opened_at := some 0 } : CircuitBreaker) 11
      = ({ name := "w7", failure_threshold := 3, recovery_timeout := 10,
           success_threshold := 2, state := CircuitState.halfOpen,
           failure_count := 3, success_count := 0, opened_at := some 0 }, true)) ∧
    ((run_calls { name := "w7", failure_threshold := 3, recovery_timeout := 10,
                  success_threshold := 2, state := CircuitState.halfOpen,
                  failure_count := 0, success_count := 0, opened_at := some 0 }
        (List.replicate 2 ((12 : Int), true))).state = CircuitState.closed) :=
  ⟨c7_open_probe_and_recovery.1 _ 11 rfl (by decide),
    c7_open_probe_and_recovery.2.1 _ 12 2 rfl (by decide) (by decide)⟩

/-- Claim C9 counterexample: the claim states that successCount is
reset to 0 whenever the breaker leaves HalfOpen, including the
HalfOpen-to-Closed transition, so get_stats reports 0 right after it.
With failure_threshold 1 and success_threshold 2: a failure at t=0
(Open), a successful probe at t=11 (HalfOpen), and a second success at
t=12 closes the breaker — and get_stats then reports success_count 2,
not 0. -/
theorem c9_successcount_not_reset_on_close :
    ((run_calls (mkBreaker "users" 1 10 2) [((0 : Int), false), (11, true)]).state
      = CircuitState.halfOpen) ∧
    ((run_calls (mkBreaker "users" 1 10 2)
        [((0 : Int), false), (11, true), (12, true)]).state = CircuitState.closed) ∧
    ((get_stats (run_calls (mkBreaker "users" 1 10 2)
        [((0 : Int), false), (11, true), (12, true)])).success_count = 2) ∧
    ¬ ((get_stats (run_calls (mkBreaker "users" 1 10 2)
        [((0 : Int), false), (11, true), (12, true)])).success_count = 0) := by decide

/-- Claim C9 as amended: successCount is reset to 0 by every recorded
failure and by the Open-to-HalfOpen transition; on a HalfOpen success
it is incremented, and it keeps that incremented value through the
HalfOpen-to-Closed transition, so get_stats right after a HalfOpen
success reports the previous count plus one (not 0). -/
theorem c9_successcount_reset_amended :
    (∀ (b : CircuitBreaker) (now : Int), (on_failure b now).success_count = 0) ∧
    (∀ (b : CircuitBreaker) (now : Int), b.state = CircuitState.opened →
        b.recovery_timeout ≤ now - b.opened_at.getD 0 →
        (gate b now).1.success_count = 0) ∧
    (∀ b : CircuitBreaker, b.state = CircuitState.halfOpen →
        (get_stats (on_success b)).success_count = b.success_count + 1) := by
  refine ⟨?_, ?_, ?_⟩
  · intro b now
    simp only [on_failure]
    split <;> rfl
  · intro b now hs h
    obtain ⟨nm, ft, rt, st, s, fc, sc, oa⟩ := b
    simp only at hs h ⊢
    subst hs
    have hcond : ¬ (now - oa.getD 0 < rt) := by omega
    simp [gate, hcond]
  · intro b hs
    obtain ⟨nm, ft, rt, st, s, fc, sc, oa⟩ := b
    simp only at hs
    subst hs
    simp only [on_success, get_stats]
    split
    · split <;> rfl
    · simp_all

/-- Witness for the amended claim C9 at concrete breakers. -/
theorem c9_successcount_reset_amended_witness :
    ((on_failure (mkBreaker "w9" 3 10 2) 0).success_count = 0) ∧
    ((gate ({ name := "w9", failure_threshold := 3, recovery_timeout := 10,
              success_threshold := 2, state := CircuitState.opened,
              failure_count := 3, success_count := 1,
              opened_at := some 0 } : CircuitBreaker) 11).1.success_count = 0) ∧
    ((get_stats (on_success { name := "w9", failure_threshold := 3,
                              recovery_timeout := 10, success_threshold := 2,
                              state := CircuitState.halfOpen, failure_count := 0,
                              success_count := 1,
                              opened_at := some 0 })).success_count = 2) :=
  ⟨c9_successcount_reset_amended.1 _ 0,
    c9_successcount_reset_amended.2.1 _ 11 rfl (by decide),
    c9_successcount_reset_amended.2.2 _ rfl⟩

end Breaker

namespace Saga

/-- Claim C2: the claim states that once a saga's status has become
Compensating or Compensated, no later advance_saga call can set it back
to Running or Completed.  This theorem evaluates the code at a concrete
failing input: a failed charge_payment leaves the saga Compensated, yet
a later successful reserve_inventory sets the status to Running, and
after later successes for all three steps the status is Completed —
advance_saga recomputes the status with no guard on compensation. -/
theorem c2_status_reverts_after_compensation :
    ((run_saga (create_saga "s3" "O3" 3 ["sku-C"])
        [⟨CHARGE_PAYMENT, false, []⟩] all_ok).status = SagaStatus.compensated) ∧
    ((run_saga (create_saga "s3" "O3" 3 ["sku-C"])
        [⟨CHARGE_PAYMENT, false, []⟩, ⟨RESERVE_INVENTORY, true, []⟩] all_ok).status
      = SagaStatus.running) ∧
    ((run_saga (create_saga "s3" "O3" 3 ["sku-C"])
        [⟨CHARGE_PAYMENT, false, []⟩, ⟨RESERVE_INVENTORY, true, []⟩,
          ⟨CHARGE_PAYMENT, true, []⟩, ⟨CONFIRM_ORDER, true, []⟩] all_ok).status
      = SagaStatus.completed) := by decide

/-- Claim C3: the claim states that at most one compensating event is
emitted per successfully-completed step, even when advance_saga is
called twice with the same failing step.  This theorem evaluates the
code at a concrete failing input: after a successful reserve_inventory,
two advance_saga calls failing charge_payment re-run the full
compensation traversal, emitting the inventory-release event for the
one completed step twice. -/
theorem c3_duplicate_compensation_events :
    (((run_saga_events (create_saga "s4" "O4" 4 ["sku-D"])
        [⟨RESERVE_INVENTORY, true, []⟩, ⟨CHARGE_PAYMENT, false, []⟩,
          ⟨CHARGE_PAYMENT, false, []⟩] all_ok).2.filter
        (fun e => match e with
          | Event.inventory_release _ _ => true
          | _ => false)).length = 2) ∧
    ((run_saga_events (create_saga "s4" "O4" 4 ["sku-D"])
        [⟨RESERVE_INVENTORY, true, []⟩, ⟨CHARGE_PAYMENT, false, []⟩,
          ⟨CHARGE_PAYMENT, false, []⟩] all_ok).2
      = [Event.inventory_release "O4" ["sku-D"],
          Event.inventory_release "O4" ["sku-D"]]) := by decide

/-- Claim C5: compensation traverses the successful step names in
reverse append order, attempting exactly one inventory-release event
(with the saga's order_id and items) per reserve_inventory entry,
exactly one payment-refund event (with order_id and user_id) per
charge_payment entry, and nothing for any other step; concretely, a
saga for order O1 with items [sku-A] whose reserve_inventory succeeded
and whose charge_payment then failed ends Compensated with exactly one
inventory-release event and zero payment-refund events. -/
theorem c5_compensation_traversal :
    (∀ (saga : SagaState) (pub_ok : Nat → Bool),
      (compensate saga pub_ok).2.1 =
        (((saga.steps.filter (fun q => q.success)).map (fun q => q.step)).reverse).filterMap
          (fun s =>
            if s = RESERVE_INVENTORY then
              some (Event.inventory_release saga.order_id saga.items)
            else if s = CHARGE_PAYMENT then
              some (Event.payment_refund saga.order_id saga.user_id)
            else none)) ∧
    ((advance_saga (advance_saga (create_saga "s1" "O1" 1 ["sku-A"])
        RESERVE_INVENTORY true [] all_ok).1 CHARGE_PAYMENT false [] all_ok).1.status
      = SagaStatus.compensated) ∧
    ((advance_saga (advance_saga (create_saga "s1" "O1" 1 ["sku-A"])
        RESERVE_INVENTORY true [] all_ok).1 CHARGE_PAYMENT false [] all_ok).2.1
      = [Event.inventory_release "O1" ["sku-A"]]) ∧
    (((advance_saga (advance_saga (create_saga "s1" "O1" 1 ["sku-A"])
        RESERVE_INVENTORY true [] all_ok).1 CHARGE_PAYMENT false [] all_ok).2.1.filter
          (fun e => match e with
            | Event.payment_refund _ _ => true
            | _ => false)).length = 0) := by
  refine ⟨fun saga pub_ok => ?_, by decide, by decide, by decide⟩
  simp only [compensate]
  rw [compensate_loop_fst]

/-- Claim C6: an advance_saga call with success = true sets the status
to Completed exactly when every required step (reserve_inventory,
charge_payment, confirm_order) has at least one successful record in
the updated step log, and to Running otherwise; concretely, create_saga
followed by successful advances for the three required steps ends
Completed. -/
theorem c6_completion_criterion :
    (∀ (saga : SagaState) (step : String) (payload : List (String × String))
        (pub_ok : Nat → Bool),
      ((advance_saga saga step true payload pub_ok).1.status = SagaStatus.completed ∨
        (advance_saga saga step true payload pub_ok).1.status = SagaStatus.running) ∧
      ((advance_saga saga step true payload pub_ok).1.status = SagaStatus.completed ↔
        ∀ r ∈ [RESERVE_INVENTORY, CHARGE_PAYMENT, CONFIRM_ORDER],
          ∃ q ∈ (advance_saga saga step true payload pub_ok).1.steps,
            q.success = true ∧ q.step = r)) ∧
    ((run_saga (create_saga "s2" "O2" 2 ["sku-B"])
        [⟨RESERVE_INVENTORY, true, []⟩, ⟨CHARGE_PAYMENT, true, []⟩,
          ⟨CONFIRM_ORDER, true, []⟩] all_ok).status = SagaStatus.completed) := by
  refine ⟨?_, by decide⟩
  intro saga step payload pub_ok
  have ht : ¬ (true = false) := by decide
  simp only [advance_saga, if_neg ht]
  split
  case isTrue h =>
    refine ⟨Or.inl rfl, ?_⟩
    simp only [List.all_eq_true] at h
    constructor
    · intro _ r hr
      have hc := h r hr
      rw [contains_completed_steps] at hc
      obtain ⟨q, hq, hqs, hstep⟩ := hc
      exact ⟨q, hq, hqs, hstep⟩
    · intro _
      rfl
  case isFalse h =>
    refine ⟨Or.inr rfl, ?_⟩
    constructor
    · intro hcon
      simp at hcon
    · intro hall
      exfalso
      apply h
      simp only [List.all_eq_true]
      intro r hr
      rw [contains_completed_steps]
      obtain ⟨q, hq, hqs, hstep⟩ := hall r hr
      exact ⟨q, hq, hqs, hstep⟩

/-- Claim C8: compensation is best-effort — the set of compensating
events whose publish is attempted does not depend on which individual
publishes fail (every compensation is still attempted), and after the
traversal the saga's status is Compensated regardless of the publish
outcomes; moreover only the status field changes. -/
theorem c8_best_effort_compensation (saga : SagaState) (pub_ok : Nat → Bool) :
    (compensate saga pub_ok).2.1 = (compensate saga all_ok).2.1 ∧
    (compensate saga pub_ok).1.status = SagaStatus.compensated ∧
    (compensate saga pub_ok).1 = { saga with status := SagaStatus.compensated } := by
  refine ⟨?_, rfl, rfl⟩
  simp only [compensate]
  rw [compensate_loop_fst, compensate_loop_fst]

/-- Claim C10: over any sequence of advance_saga calls, the saga_id,
order_id, user_id, items and compensations fields of the stored saga
are exactly those set by create_saga — only status and steps are ever
modified — and create_saga initializes compensations to the empty list,
so it stays empty forever. -/
theorem c10_advance_saga_frame :
    (∀ (saga : SagaState) (calls : List AdvanceCall) (pub_ok : Nat → Bool),
      (run_saga saga calls pub_ok).saga_id = saga.saga_id ∧
      (run_saga saga calls pub_ok).order_id = saga.order_id ∧
      (run_saga saga calls pub_ok).user_id = saga.user_id ∧
      (run_saga saga calls pub_ok).items = saga.items ∧
      (run_saga saga calls pub_ok).compensations = saga.compensations) ∧
    (∀ (sid oid : String) (uid : Int) (items : List String),
      (create_saga sid oid uid items).compensations = ([] : List String)) := by
  constructor
  · intro saga calls pub_ok
    induction calls generalizing saga with
    | nil => exact ⟨rfl, rfl, rfl, rfl, rfl⟩
    | cons c rest ih =>
      have hstep := advance_frame saga c.step c.success c.payload pub_ok
      have hrest := ih ((advance_saga saga c.step c.success c.payload pub_ok).1)
      rw [show run_saga saga (c :: rest) pub_ok
          = run_saga (advance_saga saga c.step c.success c.payload pub_ok).1 rest pub_ok
        from rfl]
      exact ⟨hrest.1.trans hstep.1, hrest.2.1.trans hstep.2.1,
        hrest.2.2.1.trans hstep.2.2.1, hrest.2.2.2.1.trans hstep.2.2.2.1,
        hrest.2.2.2.2.trans hstep.2.2.2.2⟩
  · intro sid oid uid items
    rfl

end Saga
